import Mathlib

/-!
Shallow embedding of the swarm-autoscaler core (the single-binary variant in
`src/`): the label vocabulary from `constants.py`, the per-service accessors
and scaling write path from `docker_service.py`, the decision engine and the
scale queue from `autoscaler_service.py`, and the audit store record shape
from `events.py`.  Machine floats of the source are modelled as rationals;
Python dictionaries as association lists.
-/

namespace SwarmAutoscaler

/-! ## constants.py -/

def LABEL_AUTOSCALE : String := "swarm.autoscale"
def LABEL_MAX_REPLICAS : String := "swarm.autoscale.max"
def LABEL_MIN_REPLICAS : String := "swarm.autoscale.min"
def LABEL_DISABLE_MANUAL_REPLICAS : String := "swarm.autoscale.disable-manual-replicas"
def LABEL_PERCENTAGE_MAX : String := "swarm.autoscale.percentage-max"
def LABEL_PERCENTAGE_MIN : String := "swarm.autoscale.percentage-min"
def LABEL_DECREASE_MODE : String := "swarm.autoscale.decrease-mode"
def LABEL_METRIC : String := "swarm.autoscale.metric"

def DEFAULT_MIN_REPLICAS : Int := 2
def DEFAULT_MAX_REPLICAS : Int := 15

inductive MetricEnum where
  | cpu
  | memory
deriving DecidableEq, Repr

/-- Modelled from the spec: `decrease_mode_enum.py` is imported by
`autoscaler_service.py` and `docker_service.py` but the file is absent from
`src/`.  Spec section 3 and the label vocabulary table give the enum exactly
two members, `MEDIAN` and `MAX`, with `MEDIAN` the default. -/
inductive DecreaseModeEnum where
  | median
  | max
deriving DecidableEq, Repr

/-! ## Python builtins used by the source -/

/-- Model of Python `int(str)`: optional surrounding whitespace, an optional
sign, then a non-empty digit string (PEP-515 underscore grouping is not
modelled).  `none` models the `ValueError` raised on any other input. -/
def pyInt (s : String) : Option Int :=
  let t := ((s.data.dropWhile Char.isWhitespace).reverse.dropWhile Char.isWhitespace).reverse
  match t with
  | [] => none
  | c :: rest =>
    let core := if c = '-' ∨ c = '+' then rest else c :: rest
    if core.length > 0 ∧ core.all Char.isDigit then
      let mag : Int := Int.ofNat (core.foldl (fun n d => n * 10 + (d.toNat - 48)) 0)
      some (if c = '-' then -mag else mag)
    else none

/-- Stable insertion into an ascending-sorted list, the building block of the
model of Python `sorted`. -/
def insertSorted (x : ℚ) : List ℚ → List ℚ
  | [] => [x]
  | y :: ys => if x ≤ y then x :: y :: ys else y :: insertSorted x ys

/-- Model of Python `sorted` on rationals (insertion sort). -/
def pySorted (l : List ℚ) : List ℚ := l.foldr insertSorted []

/-- Model of Python `statistics.median`: sort, take the middle element for odd
length and the mean of the two middle elements for even length.  (Python
raises on the empty list; here the junk value `0` is returned and all
theorems that rely on `median` carry a non-emptiness hypothesis.) -/
def median (l : List ℚ) : ℚ :=
  let s := pySorted l
  let n := l.length
  if n % 2 = 1 then s.getD (n / 2) 0
  else (s.getD (n / 2 - 1) 0 + s.getD (n / 2) 0) / 2

/-- Model of Python `max(list)` on a non-empty list (`0` junk value on `[]`). -/
def listMax (l : List ℚ) : ℚ :=
  match l with
  | [] => 0
  | x :: xs => xs.foldl (fun a b => if a < b then b else a) x

/-! ## Data model: a service as the decision paths read it -/

/-- A swarm service as the scaling code reads it from the orchestrator:
`labels` is `attrs.Spec.Labels`, `replicated` is
`attrs.Spec.Mode.Replicated.Replicas` (`none` when the service is not in
replicated mode), `maxReplicasPerNode` is
`attrs.Spec.TaskTemplate.Placement.MaxReplicas`, and `containers` is the
per-container discovery result for the selected metric on the current tick
(`none` when `getServiceContainersId` returned `None`; an element is `none`
when `discovery.getContainerStats` returned no usable sample for that
container). -/
structure Service where
  id : String
  name : String
  labels : List (String × String)
  replicated : Option Int
  maxReplicasPerNode : Option Int
  containers : Option (List (Option ℚ))
deriving DecidableEq, Repr

/-- `attrs.Spec.Labels.get(key)`. -/
def labelOf (s : Service) (key : String) : Option String :=
  s.labels.lookup key

/-! ## docker_service.py: label accessors -/

/-- `DockerService.getServiceMaxPercentage` (docker_service.py lines 73-77):
`int(labels.get(percentage-max))` with any exception mapped to the supplied
default (absent label gives `int(None)`, a `TypeError`). -/
def getServiceMaxPercentage (s : Service) (default : ℚ) : ℚ :=
  match labelOf s LABEL_PERCENTAGE_MAX with
  | none => default
  | some v =>
    match pyInt v with
    | none => default
    | some n => (n : ℚ)

/-- `DockerService.getServiceMinPercentage` (docker_service.py lines 79-83). -/
def getServiceMinPercentage (s : Service) (default : ℚ) : ℚ :=
  match labelOf s LABEL_PERCENTAGE_MIN with
  | none => default
  | some v =>
    match pyInt v with
    | none => default
    | some n => (n : ℚ)

/-- `DockerService.getServiceDecreaseMode` (docker_service.py lines 85-89):
`DecreaseModeEnum[value.upper()]`, any exception giving the default
MEDIAN.  The enum lookup is modelled over the spec's two members. -/
def getServiceDecreaseMode (s : Service) : DecreaseModeEnum :=
  match labelOf s LABEL_DECREASE_MODE with
  | none => .median
  | some v =>
    if v.data.map Char.toUpper = "MEDIAN".data then .median
    else if v.data.map Char.toUpper = "MAX".data then .max
    else .median

/-- Modelled from the spec: `DockerService.isAutoscaleEnabled` is called at
autoscaler_service.py line 98 but is not defined in `src/`.  Spec section 3
derives `autoscale_enabled` from the `swarm.autoscale` label
("true"/"false", default false). -/
def isAutoscaleEnabled (s : Service) : Bool :=
  decide (labelOf s LABEL_AUTOSCALE = some "true")

/-! ## autoscaler_service.py: the scaling decision (lines 84-136) -/

inductive Decision where
  | up
  | down
  | noop
deriving DecidableEq, Repr

/-- `AutoscalerService.__scale`, decision portion (autoscaler_service.py
lines 88-134): median and max of the samples, strict threshold comparisons,
replica-bound masking at lines 112-117, then the `if`/`elif`/`else` at
lines 119-134 (scale-up checked first). -/
def scaleStep (stats : List ℚ) (serviceMaxPercentage serviceMinPercentage : ℚ)
    (mode : DecreaseModeEnum) (replicas minReplicas maxReplicas : Int) : Decision :=
  let meanValue := median stats
  let maxValue := listMax stats
  let scaleUpNeeded0 : Bool := decide (serviceMaxPercentage < meanValue)
  let scaleDownThreshold : ℚ := if mode = DecreaseModeEnum.median then meanValue else maxValue
  let scaleDownNeeded0 : Bool := decide (scaleDownThreshold < serviceMinPercentage)
  let scaleUpNeeded : Bool := scaleUpNeeded0 && !(decide (maxReplicas ≤ replicas))
  let scaleDownNeeded : Bool := scaleDownNeeded0 && !(decide (replicas ≤ minReplicas))
  if scaleUpNeeded then Decision.up
  else if scaleDownNeeded then Decision.down
  else Decision.noop

/-- What `__scale` hands to the queue for each decision (autoscaler_service.py
lines 119-134): an action direction when a scale is decided and autoscale is
enabled, a logged warning (no enqueue) when it is disabled, and nothing at
all for a no-op.  `some true` is scale-up, matching `scaleIn = True`. -/
def enqueueOfDecision (d : Decision) (autoscaleEnabled : Bool) : Option Bool :=
  match d with
  | .up => if autoscaleEnabled then some true else none
  | .down => if autoscaleEnabled then some false else none
  | .noop => none

/-! ## autoscaler_service.py: scale queue and pending-action map -/

/-- One item of `_scaleQueue`: the tuple
`(service_id, scaleIn, reason, metric_name)` put at line 147. -/
structure ScaleAction where
  serviceId : String
  scaleIn : Bool
  reason : String
  metric : String
deriving DecidableEq, Repr

/-- `Queue(maxsize=1000)` from autoscaler_service.py line 31. -/
def QUEUE_MAXSIZE : Nat := 1000

/-- Update one key of a Python-dict association list in place, appending when
the key is new (`self._pendingActions[service_id] = scaleIn`, line 145). -/
def assocSet (p : List (String × Bool)) (k : String) (v : Bool) : List (String × Bool) :=
  match p with
  | [] => [(k, v)]
  | (k', v') :: t => if k' = k then (k, v) :: t else (k', v') :: assocSet t k v

/-- `del self._pendingActions[service_id]` guarded by the `in` check
(autoscaler_service.py lines 178-179). -/
def assocErase (p : List (String × Bool)) (k : String) : List (String × Bool) :=
  p.filter (fun kv => !(kv.1 = k : Bool))

/-- The shared state of `AutoscalerService`: the `_pendingActions` dict and
the `_scaleQueue` contents (FIFO, head is next to be drained). -/
structure EngState where
  pending : List (String × Bool)
  queue : List ScaleAction
deriving DecidableEq, Repr

/-- `AutoscalerService._enqueue_scale` (autoscaler_service.py lines 138-151):
return unchanged when the same direction is already pending; otherwise record
the direction in `_pendingActions` and `put_nowait` the action.  When the
queue is at `maxsize` the put raises, the action is dropped with a log, and
the pending entry is left in place (the `except` clause at lines 149-151
performs no cleanup). -/
def enqueue_scale (st : EngState) (a : ScaleAction) : EngState :=
  if st.pending.lookup a.serviceId = some a.scaleIn then st
  else
    let pending' := assocSet st.pending a.serviceId a.scaleIn
    if st.queue.length < QUEUE_MAXSIZE then ⟨pending', st.queue ++ [a]⟩
    else ⟨pending', st.queue⟩

/-- `_ScaleWorker.run`, one drain step (autoscaler_service.py lines 163-180):
pop the head of the queue and, whatever the scaling attempt did, remove the
service's pending entry.  Returns the drained action. -/
def workerStep (st : EngState) : EngState × Option ScaleAction :=
  match st.queue with
  | [] => (st, none)
  | a :: rest => (⟨assocErase st.pending a.serviceId, rest⟩, some a)

/-- An interleaving event on the shared queue state: either the decision
engine enqueues an action or the worker drains one. -/
inductive QueueOp where
  | enq (a : ScaleAction)
  | drain
deriving DecidableEq, Repr

def applyOp (st : EngState) : QueueOp → EngState
  | .enq a => enqueue_scale st a
  | .drain => (workerStep st).1

/-- The queue state reached from startup (an empty `_pendingActions` dict and an empty
queue) after a sequence of interleaved operations. -/
def runOps (ops : List QueueOp) : EngState :=
  ops.foldl applyOp ⟨[], []⟩

/-! ## docker_service.py: scaleService (lines 113-176) -/

/-- `int(v)` applied to an optional label with an integer fallback, as in
`DEFAULT if label == None else int(label)` (docker_service.py lines 122-126);
`none` models the uncaught `ValueError` of a malformed label. -/
def labelIntOrD (s : Service) (key : String) (d : Int) : Option Int :=
  match labelOf s key with
  | none => some d
  | some v => pyInt v

/-- How far `DockerService.scaleService` gets before returning: each
constructor is one of the early `return`s of docker_service.py lines
113-154, `labelError` is an uncaught `ValueError` from `int(label)`, and
`write n` means execution reaches the replica-update retry loop with target
`n`. -/
inductive ScaleOutcome where
  | notReplicated
  | labelError
  | nodeCapacity
  | unchanged
  | boundsReached
  | dryRunStop
  | write (n : Int)
deriving DecidableEq, Repr

/-- The audit record of `events.py` (`EventsStore.add_scale_event`,
lines 74-117): `delta` and `direction` are derived from the old and new
replica counts. -/
structure ScaleEvent where
  serviceId : String
  serviceName : String
  old : Int
  new : Int
  delta : Int
  direction : String
  reason : String
  metric : Option String
  dryRun : Bool
deriving DecidableEq, Repr

/-- `EventsStore.add_scale_event` (events.py lines 74-117): builds the audit
record that the store persists. -/
def add_scale_event (serviceId serviceName : String) (old new : Int)
    (reason : String) (metric : Option String) (dryRun : Bool) : ScaleEvent :=
  ⟨serviceId, serviceName, old, new, new - old,
    if 0 < new - old then "up" else if new - old < 0 then "down" else "same",
    reason, metric, dryRun⟩

/-- `DockerService.scaleService` up to the write (docker_service.py lines
113-154), paired with the list of audit events the function appends on that
path.  The source contains no call into `EventsStore` anywhere in this
function (or in `_ScaleWorker.run`), so every branch pairs its outcome with
the empty event list.  Checks in source order: replicated mode (114-117),
per-node capacity (119-134), clamping only under the
disable-manual-replicas label (136-140), no-change (142-144), replica
bounds (146-149), dry run (153-154). -/
def scaleService (s : Service) (scaleIn : Bool) (nodeCount : Int) (dryRun : Bool) :
    ScaleOutcome × List ScaleEvent :=
  match s.replicated with
  | none => (.notReplicated, [])
  | some replicas =>
    match labelIntOrD s LABEL_MAX_REPLICAS DEFAULT_MAX_REPLICAS with
    | none => (.labelError, [])
    | some maxReplicas =>
      match labelIntOrD s LABEL_MIN_REPLICAS DEFAULT_MIN_REPLICAS with
      | none => (.labelError, [])
      | some minReplicas =>
        let disableManualReplicas : Bool :=
          decide (labelOf s LABEL_DISABLE_MANUAL_REPLICAS = some "true")
        let newReplicasCount0 : Int := if scaleIn then replicas + 1 else replicas - 1
        let capacityBlocked : Bool :=
          match s.maxReplicasPerNode with
          | none => false
          | some m => (!(m = 0 : Bool)) && decide (nodeCount * m < newReplicasCount0)
        if capacityBlocked then (.nodeCapacity, [])
        else
          let n1 : Int :=
            if disableManualReplicas then
              if newReplicasCount0 < minReplicas then minReplicas else newReplicasCount0
            else newReplicasCount0
          let n2 : Int :=
            if disableManualReplicas then
              if maxReplicas < n1 then maxReplicas else n1
            else n1
          if n2 = replicas then (.unchanged, [])
          else if n2 < minReplicas ∨ maxReplicas < n2 then (.boundsReached, [])
          else if dryRun then (.dryRunStop, [])
          else (.write n2, [])

/-- The parameters `DockerService.scaleService` accepts besides `self`, read
off its signature `def scaleService(self, service, scaleIn = True)` at
docker_service.py line 113. -/
def scaleServiceParamNames : List String := ["service", "scaleIn"]

/-- The keyword arguments `_ScaleWorker.run` passes in
`self.swarmService.scaleService(service, scaleIn, reason=reason,
metric=metric_name)` at autoscaler_service.py line 172. -/
def workerScaleCallKwargs : List String := ["reason", "metric"]

/-! ## docker_service.py: the replica-update retry loop (lines 155-176) -/

/-- The orchestrator's answer to one `fresh_service.scale(n)` call: success,
a docker `APIError` with a message, or any other exception. -/
inductive APIResult where
  | ok
  | apiError (msg : String)
  | otherError (msg : String)
deriving DecidableEq, Repr

/-- The conflict test of docker_service.py line 168:
`"update out of sequence" in str(e).lower() or "update in progress" in ...`. -/
def isConflictMsg (msg : String) : Bool :=
  let m := msg.data.map Char.toLower
  decide ("update out of sequence".data <:+: m) ||
    decide ("update in progress".data <:+: m)

/-- Whether the retry loop's `except APIError` clause catches and classifies
the result as a retryable conflict. -/
def isConflict : APIResult → Bool
  | .apiError msg => isConflictMsg msg
  | _ => false

/-- The externally visible steps of the retry loop: fetching a fresh service
reference, calling `scale`, and `time.sleep(1.0 * attempts)`. -/
inductive RetryEv where
  | fetch
  | scaleCall
  | sleepSec (n : Nat)
deriving DecidableEq, Repr

/-- How the retry loop ends: the scale call succeeded, an exception was
raised to the caller, or the loop fell through with no recorded error
(unreachable from `attempts = 0`). -/
inductive RetryOutcome where
  | success
  | raised (e : APIResult)
  | fellThrough
deriving DecidableEq, Repr

/-- The `while attempts < 3` loop of docker_service.py lines 157-176,
written with the structurally decreasing counter `remaining = 3 - attempts`
(`remaining = 0` is the loop exit, where `last_err` is re-raised if set).
`resp k` is the orchestrator's answer to the scale call of attempt `k`.
A non-conflict `APIError` is re-raised by the bare `raise` at line 173; a
non-`APIError` exception is not caught at all; both surface immediately.
A conflict sleeps `1.0 * attempts` seconds (post-increment, so attempt `k`
sleeps `k + 1`) and retries. -/
def retryGo (resp : Nat → APIResult) : Nat → Nat → Option APIResult →
    List RetryEv × RetryOutcome
  | 0, _, lastErr =>
    ([], match lastErr with
         | some e => .raised e
         | none => .fellThrough)
  | remaining + 1, attempts, _ =>
    match resp attempts with
    | .ok => ([.fetch, .scaleCall], .success)
    | .apiError msg =>
      if isConflictMsg msg then
        let rest := retryGo resp remaining (attempts + 1) (some (.apiError msg))
        (.fetch :: .scaleCall :: .sleepSec (attempts + 1) :: rest.1, rest.2)
      else ([.fetch, .scaleCall], .raised (.apiError msg))
    | .otherError msg => ([.fetch, .scaleCall], .raised (.otherError msg))

/-- The whole retry phase of `scaleService` (the spec's `set_replicas`):
starts with `attempts = 0`, `last_err = None`, bound 3. -/
def set_replicas (resp : Nat → APIResult) : List RetryEv × RetryOutcome :=
  retryGo resp 3 0 none

/-! ## docker_service.py: __calculateCpu (lines 178-208) -/

/-- One container stats snapshot as `__calculateCpu` reads it; `none` models
a missing dictionary key (each numeric read in the source defaults missing
values with `or 0.0`, and a missing `percpu_usage` with `or []`). -/
structure CpuStats where
  online_cpus : Option Nat
  percpu_usage : Option (List ℚ)
  total_usage : Option ℚ
  pre_total_usage : Option ℚ
  system_cpu_usage : Option ℚ
  pre_system_cpu_usage : Option ℚ
deriving DecidableEq, Repr

/-- `DockerService.__calculateCpu` (docker_service.py lines 178-208).  Note
the cpu-count selection at lines 184-187: `if not cpuCount` also treats a
present-but-zero `online_cpus` as falsy and falls back to the per-cpu list
length (or 1). -/
def calculateCpu (stats : CpuStats) (cpuLimit : ℚ) : ℚ :=
  let per := stats.percpu_usage.getD []
  let fallbackCount : Nat := if 0 < per.length then per.length else 1
  let cpuCount : Nat :=
    match stats.online_cpus with
    | none => fallbackCount
    | some n => if n = 0 then fallbackCount else n
  let cpuDelta : ℚ := stats.total_usage.getD 0 - stats.pre_total_usage.getD 0
  let systemDelta : ℚ := stats.system_cpu_usage.getD 0 - stats.pre_system_cpu_usage.getD 0
  let percent : ℚ :=
    if 0 < cpuDelta ∧ 0 < systemDelta then cpuDelta / systemDelta * (cpuCount : ℚ) * 100
    else 0
  if cpuLimit ≠ 0 ∧ 0 < cpuLimit then percent / cpuLimit
  else percent / (if 0 < cpuCount then (cpuCount : ℚ) else 1)

/-! ## docker_service.py: getAutoscaleServices (lines 54-59) -/

/-- The outcome of `dockerClient.services.list(...)`: either the listed
services or a raised adapter error. -/
inductive ListingResult where
  | ok (services : List Service)
  | error (msg : String)
deriving DecidableEq, Repr

/-- What a call to `getAutoscaleServices` does: raise, return `None`, or
return a list of services. -/
inductive ListingReturn where
  | raised (msg : String)
  | retNone
  | ret (services : List Service)
deriving DecidableEq, Repr

/-- `DockerService.getAutoscaleServices` (docker_service.py lines 54-59).
The argument is the outcome of
`dockerClient.services.list` filtered on the autoscale label, i.e. the
services that carry the autoscale label (with any value) or the adapter
error; the function has no exception handler, so an error propagates, an
empty listing returns `None`, and otherwise the services whose label value
is exactly the string `"true"` are kept. -/
def getAutoscaleServices (listing : ListingResult) : ListingReturn :=
  match listing with
  | .error e => .raised e
  | .ok allServices =>
    if allServices.length = 0 then .retNone
    else .ret (allServices.filter
        (fun x => decide (labelOf x LABEL_AUTOSCALE = some "true")))

/-! ## autoscaler_service.py: one control tick (lines 40-82) -/

/-- How `AutoscalerService.__autoscale` finishes for one service: the early
logged return at lines 71-73, the silent return when no stats were gathered
(line 81 guard failing), a logged error from the broad `except` inside
`__scale` (a malformed min/max replicas label making `int` raise), or a
scaling decision. -/
inductive EvalOutcome where
  | skippedNoContainers
  | skippedNoStats
  | errorLogged
  | decided (d : Decision)
deriving DecidableEq, Repr

/-- `AutoscalerService.__autoscale` followed by the decision part of
`__scale` (autoscaler_service.py lines 66-134) for one service, with the
discovery results already recorded in `s.containers`.  `globalMin` and
`globalMax` are the `minPercentage`/`maxPercentage` constructor arguments. -/
def evaluateService (globalMin globalMax : ℚ) (s : Service) : EvalOutcome :=
  match s.containers with
  | none => .skippedNoContainers
  | some cs =>
    if cs.length = 0 then .skippedNoContainers
    else
      let stats := cs.filterMap id
      if stats.length = 0 then .skippedNoStats
      else
        match labelIntOrD s LABEL_MIN_REPLICAS DEFAULT_MIN_REPLICAS,
              labelIntOrD s LABEL_MAX_REPLICAS DEFAULT_MAX_REPLICAS with
        | some minReplicas, some maxReplicas =>
          .decided (scaleStep stats
            (getServiceMaxPercentage s globalMax)
            (getServiceMinPercentage s globalMin)
            (getServiceDecreaseMode s)
            (s.replicated.getD 0) minReplicas maxReplicas)
        | _, _ => .errorLogged

/-- Modelled from the spec: `DockerService.getServicesWithAutoscaleLabel`
is called at autoscaler_service.py line 51 but is not defined in `src/`.
Per spec section 4.5 step 2 and the source comment at line 50 ("Evaluate
all services that define autoscale label (true/false)") it returns the
services of the orchestrator listing that define the `swarm.autoscale`
label; the caller tolerates `None` (line 52). -/
def getServicesWithAutoscaleLabel (listing : List Service) : Option (List Service) :=
  some (listing.filter (fun s => (labelOf s LABEL_AUTOSCALE).isSome))

/-- One iteration of `AutoscalerService.run` (autoscaler_service.py lines
44-64): when the leader gate fails nothing is evaluated; otherwise the
fetched list (with `None` replaced by `[]`) is mapped through per-service
evaluation — `list(pool.imap_unordered(...))` at line 61 forces every
submitted evaluation to complete before the tick ends. -/
def runTick (isLeader : Bool) (listing : List Service) (globalMin globalMax : ℚ) :
    List (Service × EvalOutcome) :=
  if isLeader then
    ((getServicesWithAutoscaleLabel listing).getD []).map
      (fun s => (s, evaluateService globalMin globalMax s))
  else []

/-! ## Claim-side formulas (written from the spec's words, for comparison) -/

/-- The scale-worker target formula exactly as claim C3 states it:
`new = max(min_replicas, min(max_replicas, current ± 1))`. -/
def claimTargetC3 (minReplicas maxReplicas current : Int) (scaleIn : Bool) : Int :=
  max minReplicas (min maxReplicas (if scaleIn then current + 1 else current - 1))

/-- The CPU-percentage formula exactly as claim C9 states it: cpus is
`online_cpus` if present, else the length of the `percpu_usage` array, else
1; the raw percentage is divided by the quota when one `> 0` is supplied and
by cpus otherwise. -/
def claimCpuPct (stats : CpuStats) (quota : ℚ) : ℚ :=
  let cpus : Nat :=
    match stats.online_cpus with
    | some n => n
    | none =>
      let per := stats.percpu_usage.getD []
      if 0 < per.length then per.length else 1
  let cpuDelta : ℚ := stats.total_usage.getD 0 - stats.pre_total_usage.getD 0
  let systemDelta : ℚ := stats.system_cpu_usage.getD 0 - stats.pre_system_cpu_usage.getD 0
  let raw : ℚ :=
    if 0 < cpuDelta ∧ 0 < systemDelta then cpuDelta / systemDelta * (cpus : ℚ) * 100
    else 0
  if 0 < quota then raw / quota else raw / (cpus : ℚ)

/-- The service filter exactly as claim C8 states it: keep the services whose
autoscale label exists and equals `"true"` case-insensitively; an adapter
error (or an empty cluster) yields the empty sequence, never an error and
never a nil result. -/
def claim_list_autoscale (listing : ListingResult) : List Service :=
  match listing with
  | .error _ => []
  | .ok l =>
    l.filter (fun x =>
      match labelOf x LABEL_AUTOSCALE with
      | some v => decide (v.data.map Char.toLower = "true".data)
      | none => false)

/-! ## Concrete fixtures -/

/-- The spec's seed scenario S1 service: autoscale true, min 2, max 6,
percentage-min 30, percentage-max 70, metric cpu, 3 current replicas. -/
def webSvc : Service :=
  ⟨"web-id", "web",
    [(LABEL_AUTOSCALE, "true"), (LABEL_MIN_REPLICAS, "2"), (LABEL_MAX_REPLICAS, "6"),
      (LABEL_PERCENTAGE_MIN, "30"), (LABEL_PERCENTAGE_MAX, "70"), (LABEL_METRIC, "cpu")],
    some 3, none, none⟩

/-- A service manually scaled out of bounds: 10 current replicas against
labels `min:2, max:6`, without the disable-manual-replicas label. -/
def overSvc : Service :=
  ⟨"db-id", "db", [(LABEL_MIN_REPLICAS, "2"), (LABEL_MAX_REPLICAS, "6")],
    some 10, none, none⟩

/-- A scale-up action for the `web` service. -/
def webUpAction : ScaleAction := ⟨"web-id", true, "cpu median 80.0% > max 70%", "cpu"⟩

/-- A scale-down action for the `web` service. -/
def webDownAction : ScaleAction := ⟨"web-id", false, "cpu median 10.0% < min 30%", "cpu"⟩

/-- A queue already filled to `maxsize` with actions of other services. -/
def fullQueue : List ScaleAction := List.replicate QUEUE_MAXSIZE ⟨"other", true, "r", "cpu"⟩

/-- A stats snapshot whose `online_cpus` field is present but zero, with a
two-entry `percpu_usage` array and deltas 1 (cpu) and 2 (system). -/
def zeroOnlineStats : CpuStats := ⟨some 0, some [1, 1], some 2, some 1, some 2, some 0⟩

/-- A service whose autoscale label has the value `"True"`. -/
def titleCaseSvc : Service := ⟨"s1", "s1", [(LABEL_AUTOSCALE, "True")], some 1, none, none⟩

/-- A service whose percentage-max label holds the unparseable value
`"high"`. -/
def badLabelSvc : Service :=
  ⟨"b-id", "b", [(LABEL_PERCENTAGE_MAX, "high")], some 1, none, none⟩

/-- The spec's seed scenario S5 orchestrator: the first scale call fails with
an out-of-sequence conflict, every later call succeeds. -/
def respS5 : Nat → APIResult :=
  fun k => if k = 0 then .apiError "rpc error: update out of sequence" else .ok

/-! ## Amended formulas (what the code computes, for the corrected claims) -/

/-- The scale target as the code computes it: clamp into the label bounds (in
the source's order: raise to the min, then cap to the max) only when the
disable-manual-replicas label is set. -/
def amendedTargetC3 (disable : Bool) (minR maxR raw : Int) : Int :=
  if disable then
    (if (if raw < minR then minR else raw) > maxR then maxR
     else (if raw < minR then minR else raw))
  else raw

/-- The CPU formula with claim C9's cpu-count rule corrected to the code's
falsy test: a present-but-zero `online_cpus` also falls back to the per-cpu
list length (or 1). -/
def amendedCpuPct (stats : CpuStats) (quota : ℚ) : ℚ :=
  let per := stats.percpu_usage.getD []
  let fb : Nat := if 0 < per.length then per.length else 1
  let cpus : Nat :=
    match stats.online_cpus with
    | none => fb
    | some n => if n = 0 then fb else n
  let cpuDelta : ℚ := stats.total_usage.getD 0 - stats.pre_total_usage.getD 0
  let systemDelta : ℚ := stats.system_cpu_usage.getD 0 - stats.pre_system_cpu_usage.getD 0
  let raw : ℚ :=
    if 0 < cpuDelta ∧ 0 < systemDelta then cpuDelta / systemDelta * (cpus : ℚ) * 100
    else 0
  if 0 < quota then raw / quota else raw / (cpus : ℚ)

/-- How a single non-retried attempt of the replica-update loop ends: success
on `ok`, otherwise the error is raised to the caller. -/
def retResult : APIResult → RetryOutcome
  | .ok => .success
  | e => .raised e

/-! ## Helper lemmas on the pending-action association list -/

theorem mem_keys_assocSet (p : List (String × Bool)) (k : String) (v : Bool) (x : String)
    (hx : x ∈ (assocSet p k v).map Prod.fst) : x ∈ p.map Prod.fst ∨ x = k := by
  induction p with
  | nil =>
    simp only [assocSet, List.map_cons, List.map_nil, List.mem_singleton] at hx
    exact Or.inr hx
  | cons hd t ih =>
    rcases hd with ⟨a, b⟩
    simp only [assocSet] at hx
    by_cases hk : a = k
    · rw [if_pos hk] at hx
      simp only [List.map_cons, List.mem_cons] at hx
      rcases hx with h | h
      · exact Or.inr h
      · left
        simp only [List.map_cons, List.mem_cons]
        exact Or.inr h
    · rw [if_neg hk] at hx
      simp only [List.map_cons, List.mem_cons] at hx
      rcases hx with h | h
      · left
        simp only [List.map_cons, List.mem_cons]
        exact Or.inl h
      · rcases ih h with h1 | h1
        · left
          simp only [List.map_cons, List.mem_cons]
          exact Or.inr h1
        · exact Or.inr h1

theorem nodup_keys_assocSet (p : List (String × Bool)) (k : String) (v : Bool)
    (hp : (p.map Prod.fst).Nodup) : ((assocSet p k v).map Prod.fst).Nodup := by
  induction p with
  | nil => simp [assocSet]
  | cons hd t ih =>
    rcases hd with ⟨a, b⟩
    simp only [List.map_cons, List.nodup_cons] at hp
    simp only [assocSet]
    by_cases hk : a = k
    · rw [if_pos hk]
      simp only [List.map_cons, List.nodup_cons]
      exact ⟨hk ▸ hp.1, hp.2⟩
    · rw [if_neg hk]
      simp only [List.map_cons, List.nodup_cons]
      refine ⟨fun hmem => ?_, ih hp.2⟩
      rcases mem_keys_assocSet t k v a hmem with h | h
      · exact hp.1 h
      · exact hk h

theorem nodup_keys_assocErase (p : List (String × Bool)) (k : String)
    (hp : (p.map Prod.fst).Nodup) : ((assocErase p k).map Prod.fst).Nodup :=
  List.Nodup.sublist ((List.filter_sublist p).map Prod.fst) hp

theorem lookup_assocSet_self (p : List (String × Bool)) (k : String) (v : Bool) :
    (assocSet p k v).lookup k = some v := by
  induction p with
  | nil => simp [assocSet, List.lookup]
  | cons hd t ih =>
    rcases hd with ⟨a, b⟩
    simp only [assocSet]
    by_cases hk : a = k
    · rw [if_pos hk]
      simp [List.lookup]
    · rw [if_neg hk]
      have hba : (k == a) = false := beq_eq_false_iff_ne.mpr (fun h => hk h.symm)
      simp [List.lookup, hba, ih]

/-! ## Claim C1: the scaling decision -/

/-- Claim C1 counterexample: with inverted per-service watermarks (high 10,
low 90), samples `[50]`, 3 replicas in bounds 2..6, the claim's scale-down
condition holds (the median-mode basis 50 is below the low watermark 90 and
replicas exceed the minimum), yet the engine decides scale-up, because the
`if`/`elif` gives the scale-up branch priority.  So "decides scale-down
exactly when basis < low and replicas > min" is false as stated. -/
theorem claimC1_counterexample :
    median [(50 : ℚ)] < 90 ∧ (2 : Int) < 3 ∧
    scaleStep [(50 : ℚ)] 10 90 DecreaseModeEnum.median 3 2 6 = Decision.up ∧
    Decision.up ≠ Decision.down := by decide

/-- Claim C1 (amended): for a non-empty sample list the engine decides
scale-up exactly when `median > high` and `replicas < max`; it decides
scale-down exactly when the decrease-mode basis is below the low watermark,
replicas exceed the minimum, AND the scale-up condition does not hold
(scale-up has priority); it decides no-op in every other case, and a no-op
enqueues nothing. -/
theorem claimC1_amended (stats : List ℚ) (_h : stats ≠ []) (maxPct minPct : ℚ)
    (mode : DecreaseModeEnum) (replicas minR maxR : Int) :
    (scaleStep stats maxPct minPct mode replicas minR maxR = Decision.up ↔
      (maxPct < median stats ∧ replicas < maxR)) ∧
    (scaleStep stats maxPct minPct mode replicas minR maxR = Decision.down ↔
      ((if mode = DecreaseModeEnum.median then median stats else listMax stats) < minPct ∧
        minR < replicas ∧ ¬(maxPct < median stats ∧ replicas < maxR))) ∧
    (scaleStep stats maxPct minPct mode replicas minR maxR = Decision.noop ↔
      (¬(maxPct < median stats ∧ replicas < maxR) ∧
        ¬((if mode = DecreaseModeEnum.median then median stats else listMax stats) < minPct ∧
          minR < replicas))) ∧
    (∀ en : Bool, scaleStep stats maxPct minPct mode replicas minR maxR = Decision.noop →
      enqueueOfDecision (scaleStep stats maxPct minPct mode replicas minR maxR) en = none) := by
  refine ⟨?_, ?_, ?_, fun en hd => by rw [hd]; rfl⟩ <;>
  · unfold scaleStep
    by_cases h1 : maxPct < median stats <;>
      by_cases h2 : replicas < maxR <;>
        by_cases h3 : (if mode = DecreaseModeEnum.median then median stats else listMax stats)
          < minPct <;>
          by_cases h4 : minR < replicas <;>
            simp [h1, h2, h3, h4, not_lt]

/-- Claim C1 amended witness: the spec's boundary example, a single sample at
exactly the high watermark 85. -/
theorem claimC1_amended_witness :
    ([(85 : ℚ)] ≠ ([] : List ℚ)) ∧
    (scaleStep [(85 : ℚ)] 85 25 DecreaseModeEnum.median 3 2 6 = Decision.up ↔
      ((85 : ℚ) < median [(85 : ℚ)] ∧ (3 : Int) < 6)) :=
  ⟨by decide, (claimC1_amended [(85 : ℚ)] (by decide) 85 25 DecreaseModeEnum.median 3 2 6).1⟩

/-! ## Claim C2: every discovered service is evaluated each tick -/

/-- Claim C2: on a tick where the leader gate passes, the control loop maps
per-service evaluation over the whole fetched list, so there is one outcome
per discovered service and every discovered service's evaluation outcome
(decision or skip) appears in the tick's results. -/
theorem claimC2_tick_evaluates_all (isLeader : Bool) (listing : List Service) (gmin gmax : ℚ)
    (hl : isLeader = true) :
    (runTick isLeader listing gmin gmax).length =
      ((getServicesWithAutoscaleLabel listing).getD []).length ∧
    (∀ s ∈ (getServicesWithAutoscaleLabel listing).getD [],
      (s, evaluateService gmin gmax s) ∈ runTick isLeader listing gmin gmax) := by
  subst hl
  simp only [runTick, if_pos]
  refine ⟨List.length_map _ _, fun s hs => ?_⟩
  exact List.mem_map_of_mem _ hs

/-- Claim C2 witness: a leader tick over a one-service listing. -/
theorem claimC2_witness :
    (runTick true [webSvc] 25 85).length =
      ((getServicesWithAutoscaleLabel [webSvc]).getD []).length ∧
    (∀ s ∈ (getServicesWithAutoscaleLabel [webSvc]).getD [],
      (s, evaluateService 25 85 s) ∈ runTick true [webSvc] 25 85) :=
  claimC2_tick_evaluates_all true [webSvc] 25 85 rfl

/-! ## Claim C3: the scale worker's target computation -/

/-- Claim C3 counterexample: a service without the disable-manual-replicas
label at 10 current replicas with bounds 2..6.  The claim's formula
`max(min, min(max, current + 1))` gives 6, which differs from 10, so the
claim predicts a write of 6; the code instead skips without any write (the
bounds check at docker_service.py lines 146-149), because clamping only
happens under the disable-manual-replicas label. -/
theorem claimC3_counterexample :
    (scaleService overSvc true 1 false).1 = ScaleOutcome.boundsReached ∧
    claimTargetC3 2 6 10 true = 6 ∧ ((6 : Int) ≠ 10) := by decide

set_option maxHeartbeats 1600000 in
/-- Claim C3 (amended): for a replicated service with parseable bound labels
and no per-node placement limit, the target is `current ± 1`, clamped into
the label bounds only when the disable-manual-replicas label is `"true"`;
the write is performed exactly when that target differs from the current
count and lies within the bounds, and any performed write is of a target
that differs from current and is within bounds. -/
theorem claimC3_amended (s : Service) (dir : Bool) (nc : Int) (r minR maxR : Int)
    (hrep : s.replicated = some r)
    (hmr : s.maxReplicasPerNode = none)
    (hmin : labelIntOrD s LABEL_MIN_REPLICAS DEFAULT_MIN_REPLICAS = some minR)
    (hmax : labelIntOrD s LABEL_MAX_REPLICAS DEFAULT_MAX_REPLICAS = some maxR) :
    (scaleService s dir nc false).1 =
      (if amendedTargetC3 (decide (labelOf s LABEL_DISABLE_MANUAL_REPLICAS = some "true"))
            minR maxR (if dir then r + 1 else r - 1) = r
       then ScaleOutcome.unchanged
       else if amendedTargetC3 (decide (labelOf s LABEL_DISABLE_MANUAL_REPLICAS = some "true"))
            minR maxR (if dir then r + 1 else r - 1) < minR ∨
            maxR < amendedTargetC3 (decide (labelOf s LABEL_DISABLE_MANUAL_REPLICAS = some "true"))
            minR maxR (if dir then r + 1 else r - 1)
       then ScaleOutcome.boundsReached
       else ScaleOutcome.write (amendedTargetC3
            (decide (labelOf s LABEL_DISABLE_MANUAL_REPLICAS = some "true"))
            minR maxR (if dir then r + 1 else r - 1))) ∧
    (∀ n, (scaleService s dir nc false).1 = ScaleOutcome.write n →
      n = amendedTargetC3 (decide (labelOf s LABEL_DISABLE_MANUAL_REPLICAS = some "true"))
            minR maxR (if dir then r + 1 else r - 1) ∧
      n ≠ r ∧ minR ≤ n ∧ n ≤ maxR) := by
  set tgt := amendedTargetC3 (decide (labelOf s LABEL_DISABLE_MANUAL_REPLICAS = some "true"))
      minR maxR (if dir then r + 1 else r - 1) with htgt
  have hmain : (scaleService s dir nc false).1 =
      (if tgt = r then ScaleOutcome.unchanged
       else if tgt < minR ∨ maxR < tgt then ScaleOutcome.boundsReached
       else ScaleOutcome.write tgt) := by
    rw [htgt]
    unfold scaleService amendedTargetC3
    simp only [hrep, hmin, hmax, hmr]
    by_cases hd : labelOf s LABEL_DISABLE_MANUAL_REPLICAS = some "true" <;>
      simp only [hd, decide_True, decide_False, if_true, if_false] <;>
      split_ifs <;> first | rfl | (exfalso; omega) | (congr 1)
  refine ⟨hmain, fun n hw => ?_⟩
  rw [hmain] at hw
  by_cases h1 : tgt = r
  · rw [if_pos h1] at hw
    cases hw
  · rw [if_neg h1] at hw
    by_cases h2 : tgt < minR ∨ maxR < tgt
    · rw [if_pos h2] at hw
      cases hw
    · rw [if_neg h2] at hw
      injection hw with hn
      subst hn
      push_neg at h2
      exact ⟨rfl, h1, h2.1, h2.2⟩

/-- Claim C3 amended witness: the seed S1 service (3 replicas, bounds 2..6)
scaling up writes 4, which differs from 3 and sits within the bounds. -/
theorem claimC3_amended_witness :
    (webSvc.replicated = some 3) ∧ ((4 : Int) ≠ 3 ∧ (2 : Int) ≤ 4 ∧ (4 : Int) ≤ 6) :=
  ⟨rfl, ((claimC3_amended webSvc true 1 3 2 6 rfl rfl (by decide) (by decide)).2 4 (by decide)).2⟩

/-! ## Claim C4: audit events on successful scale writes -/

set_option maxHeartbeats 1600000 in
/-- Claim C4 (code bug): on the seed S1 scenario the scale path reaches the
replica write with target 4, yet its audit-event output is empty — and in
fact no branch of `scaleService` ever produces an audit event, and the
worker's call site passes the keyword arguments `reason` and `metric` which
`scaleService`'s signature does not accept, so in the source every drained
action raises `TypeError` before any write.  `add_scale_event` would have
recorded a direction-"up" event; nothing calls it. -/
theorem claimC4_no_audit_event :
    scaleService webSvc true 1 false = (ScaleOutcome.write 4, ([] : List ScaleEvent)) ∧
    (∀ (s : Service) (dir : Bool) (nc : Int) (dr : Bool), (scaleService s dir nc dr).2 = []) ∧
    "reason" ∈ workerScaleCallKwargs ∧
    "reason" ∉ scaleServiceParamNames ∧
    (add_scale_event "web-id" "web" 3 4 "cpu median 80.0 above max 70" (some "cpu")
      false).direction = "up" := by
  refine ⟨by decide, ?_, by decide, by decide, by decide⟩
  intro s dir nc dr
  unfold scaleService
  dsimp only
  repeat' split
  all_goals rfl

/-! ## Claim C5: at most one pending action per service -/

/-- Claim C5 counterexample: enqueue up for the `web` service, then (before
the worker drains) enqueue down: the pending map flips to down but the
queued up-action is not removed, so the queue holds two actions for the same
service — the opposite direction does not replace the queued action. -/
theorem claimC5_counterexample :
    (runOps [QueueOp.enq webUpAction, QueueOp.enq webDownAction]).queue =
      [webUpAction, webDownAction] ∧
    (runOps [QueueOp.enq webUpAction, QueueOp.enq webDownAction]).queue.countP
      (fun a => a.serviceId == "web-id") = 2 := by decide

/-- Claim C5 (amended): the `_pendingActions` map holds at most one direction
per service in every reachable state; enqueuing the direction already
pending for a service is an idempotent no-op; enqueuing the opposite
direction updates the pending direction and appends a new queued action
without removing the already-queued one, so the queue itself can briefly
hold two (opposite) actions for one service. -/
theorem claimC5_amended :
    (∀ ops : List QueueOp, ((runOps ops).pending.map Prod.fst).Nodup) ∧
    (∀ (st : EngState) (a : ScaleAction),
      st.pending.lookup a.serviceId = some a.scaleIn → enqueue_scale st a = st) ∧
    (∀ (st : EngState) (a : ScaleAction),
      st.pending.lookup a.serviceId = some (!a.scaleIn) →
      st.queue.length < QUEUE_MAXSIZE →
      (enqueue_scale st a).queue = st.queue ++ [a] ∧
      (enqueue_scale st a).pending.lookup a.serviceId = some a.scaleIn) := by
  have hstep : ∀ (st : EngState) (op : QueueOp),
      (st.pending.map Prod.fst).Nodup → (((applyOp st op).pending.map Prod.fst)).Nodup := by
    intro st op h
    cases op with
    | enq a =>
      simp only [applyOp, enqueue_scale]
      split_ifs
      · exact h
      · exact nodup_keys_assocSet _ _ _ h
      · exact nodup_keys_assocSet _ _ _ h
    | drain =>
      simp only [applyOp, workerStep]
      cases hq : st.queue with
      | nil => exact h
      | cons a rest => exact nodup_keys_assocErase _ _ h
  have hfold : ∀ (ops : List QueueOp) (st : EngState),
      (st.pending.map Prod.fst).Nodup → ((ops.foldl applyOp st).pending.map Prod.fst).Nodup := by
    intro ops
    induction ops with
    | nil => intro st h; exact h
    | cons op t ih =>
      intro st h
      simp only [List.foldl_cons]
      exact ih _ (hstep st op h)
  refine ⟨fun ops => hfold ops ⟨[], []⟩ (by simp), fun st a hdup => ?_, fun st a hopp hlen => ?_⟩
  · simp only [enqueue_scale, hdup, if_pos]
  · have hne : ¬(st.pending.lookup a.serviceId = some a.scaleIn) := by
      rw [hopp]
      intro hc
      injection hc with hb
      exact (Bool.not_ne_self a.scaleIn) hb
    constructor
    · simp only [enqueue_scale, if_neg hne, if_pos hlen]
    · simp only [enqueue_scale, if_neg hne, if_pos hlen]
      exact lookup_assocSet_self st.pending a.serviceId a.scaleIn

/-- Claim C5 amended witness: concrete instances of all three amended
properties. -/
theorem claimC5_amended_witness :
    ((runOps [QueueOp.enq webUpAction]).pending.map Prod.fst).Nodup ∧
    enqueue_scale ⟨[("web-id", true)], []⟩ webUpAction = ⟨[("web-id", true)], []⟩ ∧
    (enqueue_scale ⟨[("web-id", false)], []⟩ webUpAction).queue = [] ++ [webUpAction] :=
  ⟨claimC5_amended.1 [QueueOp.enq webUpAction],
   claimC5_amended.2.1 ⟨[("web-id", true)], []⟩ webUpAction (by decide),
   (claimC5_amended.2.2 ⟨[("web-id", false)], []⟩ webUpAction (by decide) (by decide)).1⟩

/-! ## Claim C6: behaviour when the scale queue is full -/

set_option maxRecDepth 40000 in
/-- Claim C6 (code bug): enqueuing onto a full queue drops the action but
does NOT clear the pending entry (the except clause at autoscaler_service.py
lines 149-151 performs no cleanup), so a repeat of the same action on a
later tick is suppressed as a duplicate — the state does not change at all. -/
theorem claimC6_queue_full_keeps_pending :
    (enqueue_scale ⟨[], fullQueue⟩ webUpAction).pending = [("web-id", true)] ∧
    (enqueue_scale ⟨[], fullQueue⟩ webUpAction).queue = fullQueue ∧
    enqueue_scale (enqueue_scale ⟨[], fullQueue⟩ webUpAction) webUpAction
      = enqueue_scale ⟨[], fullQueue⟩ webUpAction :=
  ⟨rfl, rfl, rfl⟩

/-! ## Claim C7: conflict retry in set_replicas -/

/-- Claim C7: the replica-update loop makes at most three attempts, fetches a
fresh service reference before each attempt, retries only results classified
as conflicts ("update out of sequence" / "update in progress" under
`APIError`), sleeps 1 s, 2 s, 3 s after the successive conflict failures,
raises any non-conflict result immediately, and after three conflict
failures raises the last conflict error. -/
theorem claimC7_retry_spec (resp : Nat → APIResult) :
    (isConflict (resp 0) = false →
      set_replicas resp = ([.fetch, .scaleCall], retResult (resp 0))) ∧
    (isConflict (resp 0) = true → isConflict (resp 1) = false →
      set_replicas resp =
        ([.fetch, .scaleCall, .sleepSec 1, .fetch, .scaleCall], retResult (resp 1))) ∧
    (isConflict (resp 0) = true → isConflict (resp 1) = true → isConflict (resp 2) = false →
      set_replicas resp =
        ([.fetch, .scaleCall, .sleepSec 1, .fetch, .scaleCall, .sleepSec 2, .fetch, .scaleCall],
          retResult (resp 2))) ∧
    (isConflict (resp 0) = true → isConflict (resp 1) = true → isConflict (resp 2) = true →
      set_replicas resp =
        ([.fetch, .scaleCall, .sleepSec 1, .fetch, .scaleCall, .sleepSec 2, .fetch, .scaleCall,
          .sleepSec 3], RetryOutcome.raised (resp 2))) := by
  have hstep : ∀ (k rem : Nat) (lastErr : Option APIResult), isConflict (resp k) = false →
      retryGo resp (rem + 1) k lastErr = ([.fetch, .scaleCall], retResult (resp k)) := by
    intro k rem lastErr hk
    cases hr : resp k with
    | ok => simp [retryGo, hr, retResult]
    | apiError m =>
      rw [hr] at hk
      simp only [isConflict] at hk
      simp [retryGo, hr, hk, retResult]
    | otherError m => simp [retryGo, hr, retResult]
  have hconfl : ∀ (k rem : Nat) (lastErr : Option APIResult), isConflict (resp k) = true →
      ∃ m, resp k = .apiError m ∧
        retryGo resp (rem + 1) k lastErr =
          (.fetch :: .scaleCall :: .sleepSec (k + 1) ::
            (retryGo resp rem (k + 1) (some (.apiError m))).1,
            (retryGo resp rem (k + 1) (some (.apiError m))).2) := by
    intro k rem lastErr hk
    cases hr : resp k with
    | ok =>
      rw [hr] at hk
      simp [isConflict] at hk
    | apiError m =>
      rw [hr] at hk
      simp only [isConflict] at hk
      exact ⟨m, rfl, by simp [retryGo, hr, hk]⟩
    | otherError m =>
      rw [hr] at hk
      simp [isConflict] at hk
  refine ⟨fun h0 => hstep 0 2 none h0, fun h0 h1 => ?_, fun h0 h1 h2 => ?_, fun h0 h1 h2 => ?_⟩
  · obtain ⟨m0, hm0, hrw⟩ := hconfl 0 2 none h0
    unfold set_replicas
    rw [hrw, hstep 1 1 (some (.apiError m0)) h1]
  · obtain ⟨m0, hm0, hrw0⟩ := hconfl 0 2 none h0
    obtain ⟨m1, hm1, hrw1⟩ := hconfl 1 1 (some (.apiError m0)) h1
    unfold set_replicas
    rw [hrw0, hrw1, hstep 2 0 (some (.apiError m1)) h2]
  · obtain ⟨m0, hm0, hrw0⟩ := hconfl 0 2 none h0
    obtain ⟨m1, hm1, hrw1⟩ := hconfl 1 1 (some (.apiError m0)) h1
    obtain ⟨m2, hm2, hrw2⟩ := hconfl 2 0 (some (.apiError m1)) h2
    unfold set_replicas
    rw [hrw0, hrw1, hrw2, hm2]
    simp [retryGo]

/-- Claim C7 witness: the spec's S5 scenario — one out-of-sequence conflict,
then success: two attempts, one 1-second sleep, a single success. -/
theorem claimC7_retry_spec_witness :
    set_replicas respS5 =
      ([.fetch, .scaleCall, .sleepSec 1, .fetch, .scaleCall], RetryOutcome.success) := by
  have h := (claimC7_retry_spec respS5).2.1 (by decide) (by decide)
  simpa [respS5, retResult] using h

/-! ## Claim C8: listing autoscale-labeled services -/

/-- Claim C8 counterexample: a service whose autoscale label is `"True"` is
excluded (the comparison at docker_service.py line 58 is case-sensitive),
an empty labeled listing returns `None` rather than an empty sequence, and
an adapter error propagates rather than yielding an empty sequence — three
ways the claim fails on the code. -/
theorem claimC8_counterexample :
    getAutoscaleServices (.ok [titleCaseSvc]) = .ret [] ∧
    claim_list_autoscale (.ok [titleCaseSvc]) = [titleCaseSvc] ∧
    getAutoscaleServices (.ok []) = .retNone ∧
    getAutoscaleServices (.error "boom") = .raised "boom" := by decide

/-- Claim C8 (amended): an adapter error propagates to the caller (the run
loop catches it); when no service carries the autoscale label the function
returns `None` (which the run loop maps to the empty list); otherwise it
returns exactly the listed services whose label value is the exact string
`"true"` (case-sensitive). -/
theorem claimC8_amended :
    (∀ e, getAutoscaleServices (.error e) = .raised e) ∧
    (getAutoscaleServices (.ok []) = .retNone) ∧
    (∀ l : List Service, l ≠ [] →
      ∃ r, getAutoscaleServices (.ok l) = .ret r ∧
        ∀ x, x ∈ r ↔ x ∈ l ∧ labelOf x LABEL_AUTOSCALE = some "true") := by
  refine ⟨fun e => rfl, rfl, fun l hl => ?_⟩
  refine ⟨l.filter (fun x => decide (labelOf x LABEL_AUTOSCALE = some "true")), ?_, ?_⟩
  · simp only [getAutoscaleServices]
    rw [if_neg (by simpa [List.length_eq_zero] using hl)]
  · intro x
    simp [List.mem_filter]

/-- Claim C8 amended witness: error propagation on a concrete error and the
membership characterization on a one-service listing. -/
theorem claimC8_amended_witness :
    getAutoscaleServices (.error "boom") = .raised "boom" ∧
    (∃ r, getAutoscaleServices (.ok [webSvc]) = .ret r ∧
      ∀ x, x ∈ r ↔ x ∈ [webSvc] ∧ labelOf x LABEL_AUTOSCALE = some "true") :=
  ⟨claimC8_amended.1 "boom", claimC8_amended.2.2 [webSvc] (by decide)⟩

/-! ## Claim C9: the CPU percentage formula -/

/-- Claim C9 counterexample: a snapshot with `online_cpus` present but equal
to 0, a two-entry per-cpu array, cpu delta 1, system delta 2, quota 1.  The
code treats the zero as falsy and uses cpu count 2, yielding 100; the
claim's formula ("online_cpus if present") uses 0 and yields 0. -/
theorem claimC9_counterexample :
    calculateCpu zeroOnlineStats 1 = 100 ∧ claimCpuPct zeroOnlineStats 1 = 0 ∧
    (100 : ℚ) ≠ 0 := by
  refine ⟨?_, ?_, by norm_num⟩
  · norm_num [calculateCpu, zeroOnlineStats]
  · norm_num [claimCpuPct, zeroOnlineStats]

/-- Claim C9 (amended): the sampled percentage follows the claim's formula
with one correction — the cpu count is `online_cpus` only when it is present
AND non-zero; a present-but-zero value falls back to the per-cpu array
length (or 1), exactly like an absent one.  The final division is by the
quota when it is positive and by that cpu count otherwise. -/
theorem claimC9_amended (stats : CpuStats) (quota : ℚ) :
    calculateCpu stats quota = amendedCpuPct stats quota := by
  have key : ∀ (c : Nat) (raw : ℚ), 0 < c →
      (if quota ≠ 0 ∧ 0 < quota then raw / quota else raw / (if 0 < c then (c : ℚ) else 1)) =
      (if 0 < quota then raw / quota else raw / (c : ℚ)) := by
    intro c raw hc
    by_cases hql : 0 < quota
    · rw [if_pos ⟨ne_of_gt hql, hql⟩, if_pos hql]
    · rw [if_neg (fun hco => hql hco.2), if_neg hql, if_pos hc]
  cases ho : stats.online_cpus with
  | none =>
    simp only [calculateCpu, amendedCpuPct, ho]
    apply key
    split_ifs <;> omega
  | some n =>
    simp only [calculateCpu, amendedCpuPct, ho]
    apply key
    split_ifs <;> omega

/-! ## Claim C10: malformed watermark labels fall back to the default -/

/-- Claim C10: a percentage-max or percentage-min label whose value does not
parse as an integer makes the accessor return the caller-supplied default,
exactly as an absent label does — the service is neither skipped nor does
the accessor raise. -/
theorem claimC10_malformed_label_default (s : Service) (d : ℚ) (v : String)
    (hv : pyInt v = none) :
    (labelOf s LABEL_PERCENTAGE_MAX = some v → getServiceMaxPercentage s d = d) ∧
    (labelOf s LABEL_PERCENTAGE_MAX = none → getServiceMaxPercentage s d = d) ∧
    (labelOf s LABEL_PERCENTAGE_MIN = some v → getServiceMinPercentage s d = d) ∧
    (labelOf s LABEL_PERCENTAGE_MIN = none → getServiceMinPercentage s d = d) := by
  refine ⟨fun h => ?_, fun h => ?_, fun h => ?_, fun h => ?_⟩ <;>
    simp only [getServiceMaxPercentage, getServiceMinPercentage, h, hv]

/-- Claim C10 witness: the label value `"high"` does not parse and the
accessor returns the global default 85. -/
theorem claimC10_witness :
    pyInt "high" = none ∧ getServiceMaxPercentage badLabelSvc 85 = 85 :=
  ⟨by decide, (claimC10_malformed_label_default badLabelSvc 85 "high" (by decide)).1 (by decide)⟩

end SwarmAutoscaler
